import Mathlib

/-!
Verification of the problem-submission pipeline: the client hook
(`submitProblem`, `pollForCompletion`, `isValidUUID`, `generateUUID`) and the
remote submission handler (`serve` in the edge function, with `validateUUID`,
`sanitizeInput`, `generateUUID`).  The TypeScript code is shallowly embedded:
`undefined`/`null` become `Option`, JavaScript truthiness on strings becomes
`truthy` (empty string and absence are falsy), side effects become explicit
outcome records, and the random/IO environment becomes explicit parameters.
-/

namespace LLIter3

/-- JavaScript truthiness for an optional string: `undefined`, `null` and the
empty string are falsy, every other string is truthy. -/
def truthy : Option String → Bool
  | none => false
  | some s => s != ""

/-- JavaScript `a || b` on optional strings: yields `a` when `a` is truthy,
otherwise `b`. -/
def jsOr (a b : Option String) : Option String :=
  if truthy a then a else b

/-- JavaScript `a || undefined` (equivalently `a || null`) on an optional
string: keeps `a` only when it is truthy. -/
def jsUndef (a : Option String) : Option String :=
  if truthy a then a else none

/-- The set accepted by the JavaScript `\s` class and by `String.trim`
(restricted to the whitespace characters relevant here). -/
def isSpaceJS (c : Char) : Bool :=
  c == ' ' || c == '\t' || c == '\n' || c == '\r' ||
  c == Char.ofNat 11 || c == Char.ofNat 12 || c == Char.ofNat 160

/-- The JavaScript `\w` class: ASCII letters, digits and underscore. -/
def isWordChar (c : Char) : Bool :=
  ('a' ≤ c && c ≤ 'z') || ('A' ≤ c && c ≤ 'Z') || ('0' ≤ c && c ≤ '9') || c == '_'

/-- JavaScript `String.prototype.trim` on a character list. -/
def trimListJS (cs : List Char) : List Char :=
  ((cs.dropWhile isSpaceJS).reverse.dropWhile isSpaceJS).reverse

/-- JavaScript `String.prototype.trim`. -/
def trimJS (s : String) : String :=
  ⟨trimListJS s.data⟩

/-! ## UUID validation (`isValidUUID` in the hook, `validateUUID` in the
edge function; both apply the anchored regex
`^[0-9a-f]{8}-[0-9a-f]{4}-[0-9a-f]{4}-[0-9a-f]{4}-[0-9a-f]{12}$` with the `i`
flag). -/

/-- One slot of the anchored UUID regex: a case-insensitive hex digit or a
literal dash. -/
inductive PatTok where
  | hex : PatTok
  | dash : PatTok
deriving DecidableEq

/-- `[0-9a-f]` under the regex `i` flag. -/
def isHexDigitCI (c : Char) : Bool :=
  ('0' ≤ c && c ≤ '9') || ('a' ≤ c && c ≤ 'f') || ('A' ≤ c && c ≤ 'F')

/-- A lowercase hexadecimal digit. -/
def isLowerHexDigit (c : Char) : Bool :=
  ('0' ≤ c && c ≤ '9') || ('a' ≤ c && c ≤ 'f')

/-- Whether one character satisfies one regex slot. -/
def tokMatches : PatTok → Char → Bool
  | .hex, c => isHexDigitCI c
  | .dash, c => c == '-'

/-- The anchored 8-4-4-4-12 pattern of the UUID regex. -/
def uuidPattern : List PatTok :=
  List.replicate 8 .hex ++ [.dash] ++ List.replicate 4 .hex ++ [.dash] ++
  List.replicate 4 .hex ++ [.dash] ++ List.replicate 4 .hex ++ [.dash] ++
  List.replicate 12 .hex

/-- An anchored fixed-length regex matches exactly when the string has the
pattern's length and every character satisfies its slot. -/
def matchesAll : List PatTok → List Char → Bool
  | [], [] => true
  | p :: ps, c :: cs => tokMatches p c && matchesAll ps cs
  | _, _ => false

/-- `isValidUUID` from the client hook: tests the anchored case-insensitive
8-4-4-4-12 hex regex. -/
def isValidUUID (s : String) : Bool :=
  matchesAll uuidPattern s.data

/-- `validateUUID` from the edge function: textually the same regex test as
the client's `isValidUUID`. -/
def validateUUID (s : String) : Bool :=
  matchesAll uuidPattern s.data

/-! ## UUID generation (`generateUUID`, identical in hook and edge function):
`'xxxxxxxx-xxxx-4xxx-yxxx-xxxxxxxxxxxx'.replace(/[xy]/g, ...)` where each `x`
becomes a random hex digit and each `y` becomes `(r & 0x3 | 0x8).toString(16)`.
The i-th random draw `Math.random() * 16 | 0` is modelled as `r i % 16` for an
arbitrary `r : Nat → Nat`, which ranges over exactly the values 0..15. -/

/-- `v.toString(16)` for a nibble `v < 16`: a lowercase hex digit. -/
def hexChar (n : Nat) : Char :=
  if n < 10 then Char.ofNat (48 + n) else Char.ofNat (87 + n)

/-- The template string `"xxxxxxxx-xxxx-4xxx-yxxx-xxxxxxxxxxxx"` as characters. -/
def uuidTemplate : List Char :=
  ['x','x','x','x','x','x','x','x','-','x','x','x','x','-','4','x','x','x',
   '-','y','x','x','x','-','x','x','x','x','x','x','x','x','x','x','x','x']

/-- The `replace(/[xy]/g, ...)` traversal: position `i` counts the characters
consumed so far, and each `x`/`y` consumes one random draw `r i % 16`. -/
def genUUIDAux : List Char → Nat → (Nat → Nat) → List Char
  | [], _, _ => []
  | c :: cs, i, r =>
    if c == 'x' then hexChar (r i % 16) :: genUUIDAux cs (i + 1) r
    else if c == 'y' then hexChar ((r i % 16) &&& 3 ||| 8) :: genUUIDAux cs (i + 1) r
    else c :: genUUIDAux cs (i + 1) r

/-- `generateUUID` (hook and edge function), with the random draws `r`. -/
def generateUUID (r : Nat → Nat) : String :=
  ⟨genUUIDAux uuidTemplate 0 r⟩

/-! ## `sanitizeInput` (edge function, lines 31-37): three global regex
replacements followed by `trim`.  Each replacement is a left-to-right scan that
either removes a match and resumes after it, or keeps one character and moves
on — exactly the semantics of `String.replace` with a `/g` regex.  The scans
are written with a fuel argument so they stay structurally recursive and
kernel-computable; fuel `length + 1` always suffices because every step
strictly shortens the list. -/

/-- Case-insensitive character comparison (the regex `i` flag). -/
def lcEq (a b : Char) : Bool :=
  a.toLower == b.toLower

/-- Case-insensitive prefix test. -/
def startsWithCI : List Char → List Char → Bool
  | [], _ => true
  | _ :: _, [] => false
  | p :: ps, c :: cs => lcEq p c && startsWithCI ps cs

/-- The literal `<script` head of the script-block regex. -/
def scriptOpen : List Char := ['<', 's', 'c', 'r', 'i', 'p', 't']

/-- The literal `</script>` closer of the script-block regex. -/
def scriptClose : List Char := ['<', '/', 's', 'c', 'r', 'i', 'p', 't', '>']

/-- The body scan of `/<script\b[^<]*(?:(?!<\/script>)<[^<]*)*<\/script>/i`
after `<script\b`: the chunks `[^<]*` and `(?!<\/script>)<[^<]*` advance to
the first case-insensitive occurrence of `</script>`; the match ends right
after it, and there is no match if the closer never occurs. -/
def scriptBody : List Char → Option (List Char)
  | [] => none
  | c :: rest =>
    if startsWithCI scriptClose (c :: rest) then some ((c :: rest).drop 9)
    else scriptBody rest

/-- Attempt the script-block regex at the current position: `<script` (case
insensitive), then the `\b` boundary (the next character, if any, is not a
word character), then the body up to `</script>`.  Returns the remainder after
the match. -/
def tryScript (cs : List Char) : Option (List Char) :=
  if startsWithCI scriptOpen cs then
    match cs.drop 7 with
    | [] => none
    | c :: rest => if isWordChar c then none else scriptBody (c :: rest)
  else none

/-- Global removal of script blocks (first replacement of `sanitizeInput`). -/
def removeScriptsF : Nat → List Char → List Char
  | 0, cs => cs
  | _ + 1, [] => []
  | fuel + 1, c :: rest =>
    match tryScript (c :: rest) with
    | some rem => removeScriptsF fuel rem
    | none => c :: removeScriptsF fuel rest

/-- The literal `javascript:` scheme of the second replacement. -/
def jsScheme : List Char := ['j', 'a', 'v', 'a', 's', 'c', 'r', 'i', 'p', 't', ':']

/-- Global removal of `/javascript:/gi` matches; like the JavaScript engine,
the scan resumes after each removed match and never rescans the splice. -/
def removeJsSchemeF : Nat → List Char → List Char
  | 0, cs => cs
  | _ + 1, [] => []
  | fuel + 1, c :: rest =>
    if startsWithCI jsScheme (c :: rest) then removeJsSchemeF fuel ((c :: rest).drop 11)
    else c :: removeJsSchemeF fuel rest

/-- Attempt `/on\w+\s*=/i` at the current position: `on` (case insensitive),
one or more word characters (greedy), optional whitespace, then `=`.  Returns
the remainder after the match. -/
def tryOnAttr (cs : List Char) : Option (List Char) :=
  if startsWithCI ['o', 'n'] cs then
    let r1 := cs.drop 2
    if (r1.takeWhile isWordChar).isEmpty then none
    else
      match (r1.dropWhile isWordChar).dropWhile isSpaceJS with
      | '=' :: r3 => some r3
      | _ => none
  else none

/-- Global removal of `/on\w+\s*=/gi` matches (third replacement). -/
def removeOnAttrsF : Nat → List Char → List Char
  | 0, cs => cs
  | _ + 1, [] => []
  | fuel + 1, c :: rest =>
    match tryOnAttr (c :: rest) with
    | some rem => removeOnAttrsF fuel rem
    | none => c :: removeOnAttrsF fuel rest

/-- `sanitizeInput` from the edge function: remove `<script>...</script>`
blocks, strip `javascript:` schemes, strip inline `on...=` handler attributes,
then trim. -/
def sanitizeInput (s : String) : String :=
  let l1 := removeScriptsF (s.data.length + 1) s.data
  let l2 := removeJsSchemeF (l1.length + 1) l1
  let l3 := removeOnAttrsF (l2.length + 1) l2
  ⟨trimListJS l3⟩

/-! ## Data model: the `problem_submissions` row and the client's normalized
`ProblemResult`. -/

/-- The nested `ai_response` JSON object, with the fields the flow reads or
writes (`error` and `message` are read by the polling loop's error
derivation, `suggested_tags` by its tag extraction; the parsed fields are
written by the handler).  `none` models an absent/null/non-matching field. -/
structure AIResp where
  error : Option String := none
  message : Option String := none
  suggested_tags : Option (List String) := none
  parsed_subject : Option String := none
  parsed_difficulty : Option String := none
deriving DecidableEq

/-- A `problem_submissions` row; `none` models SQL `NULL` (or an absent JSON
field), and `tags`/`suggested_tags` are `some` exactly when the stored value
is an array (`Array.isArray`). -/
structure Row where
  id : String := ""
  user_id : String := ""
  session_id : String := ""
  title : String := ""
  input_type : String := ""
  text_content : Option String := none
  image_url : Option String := none
  voice_url : Option String := none
  status : String := ""
  content_hash : String := ""
  solution : Option String := none
  explanation : Option String := none
  topic : Option String := none
  subject : Option String := none
  difficulty : Option String := none
  tags : Option (List String) := none
  ai_response : Option AIResp := none
  error_message : Option String := none
deriving DecidableEq

/-- A row with every field empty, used only as the default of `List.getD`. -/
def emptyRow : Row := {}

/-- The client's `ProblemResult` (the hook's result state).  `status` is kept
as the raw string the code compares against the literals. -/
structure ProblemResult where
  id : String
  status : String
  solution : Option String := none
  explanation : Option String := none
  subject : Option String := none
  difficulty : Option String := none
  tags : Option (List String) := none
  errorMessage : Option String := none
deriving DecidableEq

/-- The polling loop's normalization of a fetched row into a `ProblemResult`
(`pollForCompletion`, lines 296-326): derive the error message only for
`status === 'error'` via `ai_response.error || ai_response.message ||
error_message || 'Problem processing failed'`; take `suggested_tags` from a
non-null object `ai_response` when it is an array, else the row's `tags`
array; and apply `|| undefined` / `||` fallbacks to the remaining fields. -/
def normalizeRow (r : Row) : ProblemResult :=
  let errorMessage : Option String :=
    if r.status == "error" then
      match r.ai_response with
      | some ar => jsOr ar.error (jsOr ar.message (jsOr r.error_message
          (some "Problem processing failed")))
      | none => jsOr r.error_message (some "Problem processing failed")
    else none
  let tags : Option (List String) :=
    match r.ai_response with
    | some ar =>
      match ar.suggested_tags with
      | some ts => some ts
      | none => r.tags
    | none => r.tags
  { id := r.id
    status := r.status
    solution := jsUndef r.solution
    explanation := jsOr r.explanation (jsUndef r.solution)
    subject := jsOr r.topic (jsUndef r.subject)
    difficulty := jsUndef r.difficulty
    tags := tags
    errorMessage := errorMessage }

/-! ## The polling loop (`pollForCompletion`, lines 239-356). -/

/-- An auth session as the client sees it: `session.access_token`. -/
structure Session where
  access_token : String
deriving DecidableEq

/-- The auth context's user object (`user?.id`, `user?.isGuest`). -/
structure User where
  id : String
  isGuest : Bool
deriving DecidableEq

/-- A failed status query: `error.code` (e.g. `PGRST116`) and `error.message`. -/
structure FetchErr where
  code : Option String := none
  message : String := ""
deriving DecidableEq

/-- What the environment supplies to one polling attempt: the current session
returned by `getSession`, and the result of the status query (`fetchError`
and/or a fetched row). -/
structure PollStep where
  session : Option Session := none
  fetchError : Option FetchErr := none
  row : Option Row := none
deriving DecidableEq

/-- JavaScript `String.prototype.includes` on character lists. -/
def includesList (pat : List Char) : List Char → Bool
  | [] => pat.isPrefixOf ([] : List Char)
  | c :: t => pat.isPrefixOf (c :: t) || includesList pat t

/-- JavaScript `String.prototype.includes`. -/
def includesStr (hay pat : String) : Bool :=
  includesList pat.data hay.data

/-- The polling loop's mapping of a failed status query to a user-facing
message (lines 268-281). -/
def mapFetchError (e : FetchErr) : String :=
  if e.code == some "PGRST116" then
    "Problem not found or access denied."
  else if includesStr e.message "invalid input syntax for type uuid" then
    "Invalid problem ID format. Please try submitting again."
  else if includesStr e.message "JWT" || includesStr e.message "authentication" then
    "Authentication expired. Please sign in again."
  else
    "Failed to check problem status: " ++ e.message

/-- What one run of the polling loop did: the last `setError` value, the last
`setResult` value, how many status queries it issued, and the delays of the
timers it scheduled between attempts (in order). -/
structure PollOutcome where
  error : Option String := none
  result : Option ProblemResult := none
  queries : Nat := 0
  delays : List Nat := []
deriving DecidableEq

/-- One accepted `PollStep`: the query succeeded with a row whose status is
not terminal, so the loop keeps going. -/
def goodStep (s : PollStep) : Bool :=
  s.fetchError.isNone &&
  (match s.row with
   | some r => !(r.status == "completed") && !(r.status == "error")
   | none => false)

/-- The recursive `poll` closure of `pollForCompletion`: `attempts` is the
closed-over counter (incremented after each non-terminal row, continuing only
while `attempts < maxAttempts = 60`), and each attempt consumes one
environment step.  Terminal outcomes issue no further timer; a continuation
schedules `setTimeout(poll, 2000)`. -/
def pollLoop (problemId : String) (user : Option User) :
    List PollStep → Nat → PollOutcome
  | [], _ => {}
  | step :: rest, attempts =>
    if !(isValidUUID problemId) then
      -- the throw before the query, caught by the attempt's catch block
      { error := some "Failed to check problem status: Invalid problem ID format for polling" }
    else
      -- `getSession`, then the status query (filtered by user when a session
      -- and `user?.id` are present; the filter only selects which row the
      -- store hands back, which the step environment already fixes)
      match step.fetchError with
      | some e => { error := some (mapFetchError e), queries := 1 }
      | none =>
        match step.row with
        | none =>
          { error := some "Problem not found. Please try submitting again.", queries := 1 }
        | some r =>
          let res := normalizeRow r
          if r.status == "completed" || r.status == "error" then
            { error :=
                if r.status == "error" then
                  some ((jsOr res.errorMessage (some "Problem processing failed")).getD
                    "Problem processing failed")
                else none
              result := some res
              queries := 1 }
          else
            if attempts + 1 < 60 then
              let o := pollLoop problemId user rest (attempts + 1)
              { error := o.error
                result := o.result.orElse (fun _ => some res)
                queries := 1 + o.queries
                delays := 2000 :: o.delays }
            else
              { error := some "Problem processing timed out. Please try again."
                result := some res
                queries := 1 }

/-- `pollForCompletion`: sets `attempts = 0` and schedules the first attempt
with `setTimeout(poll, 1000)`. -/
def pollForCompletion (problemId : String) (user : Option User)
    (steps : List PollStep) : PollOutcome :=
  let o := pollLoop problemId user steps 0
  { o with delays := 1000 :: o.delays }

/-! ## The submission client (`submitProblem`, lines 46-237). -/

/-- The hook's input (`ProblemSubmissionData`). -/
structure ProblemSubmissionData where
  title : String
  inputType : String
  textContent : Option String := none
  imageData : Option String := none
  voiceUrl : Option String := none
  description : Option String := none
deriving DecidableEq

/-- The result of `supabase.auth.getSession()`: a possible session and a
possible lookup error. -/
structure SessionLookup where
  session : Option Session := none
  error : Option String := none
deriving DecidableEq

/-- The request body sent to the `submit-problem` endpoint; `user_id = none`
models the field being `undefined`, which `JSON.stringify` omits from the
serialized body entirely. -/
structure RequestBody where
  input_type : String
  title : String
  description : Option String := none
  text_content : Option String := none
  image_data : Option String := none
  voice_url : Option String := none
  user_id : Option String := none
deriving DecidableEq

/-- The error half of `supabase.functions.invoke`'s result. -/
inductive SubmitError where
  | httpError (status : Option Nat)
  | withMessage (message : String)
  | plainString (s : String)
deriving DecidableEq

/-- The response half of `supabase.functions.invoke`'s result (the handler's
JSON envelope).  `status` stays a raw optional string. -/
structure SubmitResponse where
  success : Bool := false
  problemId : Option String := none
  status : Option String := none
  solution : Option String := none
  subject : Option String := none
  difficulty : Option String := none
  tags : Option (List String) := none
  error : Option String := none
  details : Option String := none
deriving DecidableEq

/-- A network call the client issues: the session lookup or the invocation of
the submission endpoint. -/
inductive ClientCall where
  | getSession
  | invokeSubmit
deriving DecidableEq

/-- What one `submitProblem` run did: its return value, the last `setError`,
the last `setResult`, the network calls issued in order, the body sent to the
endpoint (with whether a bearer header accompanied it), and the problem id the
detached polling loop was started on, if any. -/
structure SubmitOutcome where
  returnValue : Option String := none
  error : Option String := none
  result : Option ProblemResult := none
  calls : List ClientCall := []
  sentBody : Option RequestBody := none
  sentAuthHeader : Option Bool := none
  pollStarted : Option String := none
deriving DecidableEq

/-- `!data.title.trim()` — the first validation of `submitProblem`. -/
def titleMissing (data : ProblemSubmissionData) : Bool :=
  trimJS data.title == ""

/-- `!data.textContent?.trim() && !data.imageData && !data.voiceUrl` — the
second validation of `submitProblem`. -/
def contentMissing (data : ProblemSubmissionData) : Bool :=
  !(truthy (data.textContent.map trimJS)) && !(truthy data.imageData) &&
  !(truthy data.voiceUrl)

/-- `session && session.access_token` as the client tests it. -/
def truthySession : Option Session → Bool
  | none => false
  | some s => s.access_token != ""

/-- `user?.id` truthiness. -/
def truthyUserId : Option User → Bool
  | none => false
  | some u => u.id != ""

/-- The user id behind `user?.id` (only read under `truthyUserId`). -/
def userIdOf : Option User → String
  | none => ""
  | some u => u.id

/-- `user?.isGuest` truthiness. -/
def isGuestOf : Option User → Bool
  | none => false
  | some u => u.isGuest

/-- The identity-resolution ladder of `submitProblem` (lines 75-105): session
with access token ⇒ validated user id plus bearer header; else authenticated
flag with truthy id ⇒ validated user id, no header; else guest ⇒ omit the id;
else fail.  Returns the `user_id` for the body and whether a bearer header is
attached, or the thrown message. -/
def identityResolve (sl : SessionLookup) (user : Option User)
    (isAuthenticated : Bool) : Except String (Option String × Bool) :=
  if truthySession sl.session then
    if truthyUserId user && isValidUUID (userIdOf user) then
      .ok (some (userIdOf user), true)
    else
      .error "Invalid user session. Please sign in again."
  else if isAuthenticated && truthyUserId user then
    if !(isValidUUID (userIdOf user)) then
      .error "Invalid user session. Please sign in again."
    else
      .ok (some (userIdOf user), false)
  else if isGuestOf user then
    .ok (none, false)
  else
    .error "Please sign in to submit problems"

/-- The client's mapping of a `supabase.functions.invoke` error to a
user-facing message (lines 139-167). -/
def mapInvokeError (e : SubmitError) : String :=
  match e with
  | .httpError st =>
    if st == some 401 then "Authentication failed. Please sign in again."
    else if st == some 403 then "Access denied. Please check your permissions."
    else "AI service is temporarily unavailable. Please try again later."
  | .withMessage m =>
    if includesStr m "Invalid or expired authentication token" ||
        includesStr m "JWT" || includesStr m "authentication" then
      "Authentication expired. Please sign in again."
    else m
  | .plainString s => s

/-- A failure outcome after the session lookup but before the endpoint call. -/
def failAfterSession (msg : String) : SubmitOutcome :=
  { error := some msg, calls := [.getSession] }

/-- A failure outcome after the endpoint call. -/
def failAfterInvoke (body : RequestBody) (hdr : Bool) (msg : String) : SubmitOutcome :=
  { error := some msg, calls := [.getSession, .invokeSubmit]
    sentBody := some body, sentAuthHeader := some hdr }

/-- `submitProblem`: validate, look the session up, resolve the identity,
build and send the request body, interpret the response, and start the
detached polling loop when the response status is `processing` or `pending`.
The ambient auth context (`getSession`'s result, `user`, `isAuthenticated`)
and the endpoint's answer are explicit parameters. -/
def submitProblem (data : ProblemSubmissionData) (sl : SessionLookup)
    (user : Option User) (isAuthenticated : Bool)
    (invokeError : Option SubmitError) (invokeResponse : Option SubmitResponse) :
    SubmitOutcome :=
  if titleMissing data then
    { error := some "Problem title is required" }
  else if contentMissing data then
    { error := some "Problem content is required" }
  else if sl.error.isSome then
    failAfterSession "Authentication error. Please sign in again."
  else
    match identityResolve sl user isAuthenticated with
    | .error msg => failAfterSession msg
    | .ok (userId, hdr) =>
      let body : RequestBody :=
        { input_type := data.inputType
          title := trimJS data.title
          description := data.description.map trimJS
          text_content := data.textContent.map trimJS
          image_data := data.imageData
          voice_url := data.voiceUrl
          user_id := userId }
      match invokeError with
      | some e => failAfterInvoke body hdr (mapInvokeError e)
      | none =>
        match invokeResponse with
        | none => failAfterInvoke body hdr "No response received from AI service"
        | some resp =>
          if !resp.success then
            failAfterInvoke body hdr ("AI service error: " ++
              (jsOr resp.error (jsOr resp.details (some "AI processing failed"))).getD
                "AI processing failed")
          else if !(truthy resp.problemId) then
            failAfterInvoke body hdr "Invalid response from AI service: missing problem ID"
          else
            let pid := resp.problemId.getD ""
            if !(isValidUUID pid) then
              failAfterInvoke body hdr "Invalid response format from AI service"
            else
              let initialResult : ProblemResult :=
                { id := pid
                  status := (jsOr resp.status (some "pending")).getD "pending"
                  solution := resp.solution
                  subject := resp.subject
                  difficulty := resp.difficulty
                  tags := resp.tags }
              let base : SubmitOutcome :=
                { returnValue := some pid, result := some initialResult
                  calls := [.getSession, .invokeSubmit]
                  sentBody := some body, sentAuthHeader := some hdr }
              if resp.status == some "completed" then
                base
              else if resp.status == some "processing" || resp.status == some "pending" then
                { base with pollStarted := some pid }
              else
                base

/-! ## The remote submission handler (the edge function's `serve` callback,
lines 55-490). -/

/-- `SecureProblemRequest`, the parsed JSON body.  Fields the code tests for
truthiness are optional strings. -/
structure SecureProblemRequest where
  input_type : Option String := none
  title : Option String := none
  description : Option String := none
  text_content : Option String := none
  image_data : Option String := none
  voice_url : Option String := none
  user_id : Option String := none
  session_id : Option String := none
deriving DecidableEq

/-- The Gemini call's observable result: a non-ok HTTP status, or an ok
response whose first candidate text may be missing. -/
inductive GeminiResult where
  | fail (status : Nat)
  | ok (text : Option String)
deriving DecidableEq

/-- The handler's environment: the API key, the random draws behind the two
`generateUUID()` calls, the database's answers to the inserts/updates, the
abstract SHA-256 (its value never feeds back into control flow), and the
Gemini response. -/
structure HandlerEnv where
  googleApiKey : Option String := none
  guestRand : Nat → Nat := fun _ => 0
  problemRand : Nat → Nat := fun _ => 0
  guestInsertError : Option String := none
  sessionInsert : Except String String := .ok ""
  problemInsertError : Option String := none
  hash : String → String := fun _ => ""
  gemini : GeminiResult := .fail 0
  updateError : Option String := none

/-- The handler's observable outcome: the HTTP response fields and the
successive states of the `problem_submissions` row it persisted (the insert,
then each applied update), plus the identity it attributed the submission to
and the guest id it minted, if any. -/
structure HandlerOutcome where
  status : Nat
  success : Bool
  error : Option String := none
  details : Option String := none
  problemId : Option String := none
  sessionId : Option String := none
  respStatus : Option String := none
  solution : Option String := none
  subject : Option String := none
  difficulty : Option String := none
  tags : Option (List String) := none
  writes : List Row := []
  usedUserId : Option String := none
  mintedGuest : Option String := none

/-- A thrown error caught by the outer catch block: HTTP 500 with
`{success:false, error, details:'Secure processing failed'}`. -/
def throwOutcome (msg : String) : HandlerOutcome :=
  { status := 500, success := false, error := some msg
    details := some "Secure processing failed" }

/-- One line of the response parse (lines 370-384): keyword matching on the
lowercased line updates the running subject and difficulty. -/
def parseLine (acc : String × String) (line : String) : String × String :=
  let lower := line.toLower
  let subject :=
    if includesStr lower "subject" || includesStr lower "area" then
      if includesStr lower "math" then "Mathematics"
      else if includesStr lower "science" || includesStr lower "physics" ||
          includesStr lower "chemistry" || includesStr lower "biology" then "Science"
      else if includesStr lower "history" then "History"
      else if includesStr lower "english" || includesStr lower "literature" then "English"
      else acc.1
    else acc.1
  let difficulty :=
    if includesStr lower "difficulty" then
      if includesStr lower "easy" then "easy"
      else if includesStr lower "hard" then "hard"
      else "medium"
    else acc.2
  (subject, difficulty)

/-- The whole response parse: split the sanitized solution on newlines and
fold `parseLine` from `('General', 'medium')`. -/
def parseSolution (s : String) : String × String :=
  (s.splitOn "\n").foldl parseLine ("General", "medium")

/-- The handler from the Gemini stage on (lines 216-469), after the row was
inserted as `processing`: missing API key ⇒ write `error` back and answer 503;
failed Gemini call ⇒ write `error` back and answer 500; otherwise sanitize and
parse the solution, write the `completed` update and answer 200 (or throw and
answer 500 when that update fails, leaving the row as inserted). -/
def processStage (row0 : Row) (problemId sessionId userId : String)
    (minted : Option String) (env : HandlerEnv) : HandlerOutcome :=
  if !(truthy env.googleApiKey) then
    let row1 := { row0 with
      status := "error"
      error_message := some "AI service temporarily unavailable" }
    { status := 503, success := false
      error := some "AI service temporarily unavailable"
      problemId := some problemId
      writes := [row0, row1], usedUserId := some userId, mintedGuest := minted }
  else
    match env.gemini with
    | .fail st =>
      let msg := "AI processing error: " ++ toString st
      let row1 := { row0 with status := "error", error_message := some msg }
      { status := 500, success := false, error := some msg
        problemId := some problemId
        writes := [row0, row1], usedUserId := some userId, mintedGuest := minted }
    | .ok text =>
      let solution := (jsOr text (some "No solution generated")).getD ""
      let sanitizedSolution := sanitizeInput solution
      let parsed := parseSolution sanitizedSolution
      let subject := parsed.1
      let difficulty := parsed.2
      let tags : List String := ["learning", "education", subject.toLower]
      let row1 := { row0 with
        solution := some sanitizedSolution
        topic := some subject
        difficulty := some difficulty
        tags := some tags
        status := "completed"
        ai_response := some { suggested_tags := some tags
                              parsed_subject := some subject
                              parsed_difficulty := some difficulty } }
      match env.updateError with
      | some e =>
        { throwOutcome ("Failed to update secure problem submission: " ++ e) with
            writes := [row0], usedUserId := some userId, mintedGuest := minted }
      | none =>
        { status := 200, success := true
          problemId := some problemId, sessionId := some sessionId
          respStatus := some "completed", solution := some sanitizedSolution
          subject := some subject, difficulty := some difficulty, tags := some tags
          writes := [row0, row1], usedUserId := some userId, mintedGuest := minted }

/-- The sanitized `text_content` (`requestBody.text_content ?
sanitizeInput(requestBody.text_content) : undefined`). -/
def sanitizedText (req : SecureProblemRequest) : Option String :=
  if truthy req.text_content then some (sanitizeInput (req.text_content.getD ""))
  else none

/-- The `serve` callback: validate `input_type`/`title`, sanitize the text
fields, check `text_content` for text input, validate caller-supplied
user/session ids as UUIDs, mint a guest id when none was supplied, create the
session when none was supplied, hash the content, insert the row as
`processing`, then hand over to the AI stage. -/
def serveHandler (req : SecureProblemRequest) (env : HandlerEnv) : HandlerOutcome :=
  if !(truthy req.input_type) || !(truthy req.title) then
    throwOutcome "Missing required fields: input_type and title are required"
  else
    let sanitizedTitle := sanitizeInput (req.title.getD "")
    let sanitizedTextContent := sanitizedText req
    if req.input_type == some "text" && !(truthy sanitizedTextContent) then
      throwOutcome "text_content is required for text input type"
    else if truthy req.user_id && !(validateUUID (req.user_id.getD "")) then
      throwOutcome "Invalid user ID format"
    else if truthy req.session_id && !(validateUUID (req.session_id.getD "")) then
      throwOutcome "Invalid session ID format"
    else
      let minted : Option String :=
        if truthy req.user_id then none else some (generateUUID env.guestRand)
      let userId : String :=
        if truthy req.user_id then req.user_id.getD ""
        else generateUUID env.guestRand
      -- the guest `users` insert error is logged and ignored (lines 128-130)
      match (if truthy req.session_id then Except.ok (req.session_id.getD "")
             else env.sessionInsert) with
      | .error _ => throwOutcome "Failed to create secure session"
      | .ok sessionId =>
        let contentForHash :=
          (jsOr sanitizedTextContent (jsOr req.image_data req.voice_url)).getD ""
        let contentHash := env.hash contentForHash
        let problemId := generateUUID env.problemRand
        let row0 : Row :=
          { id := problemId
            user_id := userId
            session_id := sessionId
            title := sanitizedTitle
            input_type := req.input_type.getD ""
            text_content := jsUndef sanitizedTextContent
            image_url := jsUndef req.image_data
            voice_url := jsUndef req.voice_url
            status := "processing"
            content_hash := contentHash }
        match env.problemInsertError with
        | some e =>
          throwOutcome ("Failed to create secure problem submission: " ++ e)
        | none =>
          processStage row0 problemId sessionId userId minted env

/-! ## Helper lemmas about the UUID pattern and generator. -/

/-- A matched pattern pins the dash count: hex slots never hold a dash, dash
slots always do. -/
theorem count_dash_of_matchesAll : ∀ (ps : List PatTok) (cs : List Char),
    matchesAll ps cs = true → cs.count '-' = ps.count PatTok.dash := by
  intro ps
  induction ps with
  | nil =>
    intro cs h
    cases cs with
    | nil => simp
    | cons c cs => simp [matchesAll] at h
  | cons p ps ih =>
    intro cs h
    cases cs with
    | nil => simp [matchesAll] at h
    | cons c cs =>
      rw [matchesAll, Bool.and_eq_true] at h
      obtain ⟨h1, h2⟩ := h
      rw [List.count_cons, List.count_cons, ih cs h2]
      cases p with
      | hex =>
        have hc : (c == '-') = false := by
          rw [beq_eq_false_iff_ne]
          intro he
          rw [he] at h1
          exact absurd h1 (by decide)
        rw [hc, show (PatTok.hex == PatTok.dash) = false from by decide]
      | dash =>
        have hc : c = '-' := by
          have h1' : (c == '-') = true := h1
          exact (beq_iff_eq (a := c) (b := '-')).mp h1'
        subst hc
        rw [show (('-' : Char) == '-') = true from by decide,
          show (PatTok.dash == PatTok.dash) = true from by decide]

/-- Lowercase hex digits are hex digits of the case-insensitive class. -/
theorem lowerHex_isHexCI (c : Char) (h : isLowerHexDigit c = true) :
    isHexDigitCI c = true := by
  rw [isLowerHexDigit, Bool.or_eq_true] at h
  rw [isHexDigitCI, Bool.or_eq_true, Bool.or_eq_true]
  exact Or.inl h

/-- An `x` slot of the generator always produces a hex digit. -/
theorem hexChar_mod_hex (n : Nat) : isHexDigitCI (hexChar (n % 16)) = true := by
  have h : n % 16 < 16 := Nat.mod_lt _ (by decide)
  have hall : ∀ m : Fin 16, isHexDigitCI (hexChar m.val) = true := by decide
  exact hall ⟨n % 16, h⟩

/-- A `y` slot of the generator always produces a hex digit (in fact one of
`8`, `9`, `a`, `b`). -/
theorem hexChar_y_hex (n : Nat) : isHexDigitCI (hexChar ((n % 16) &&& 3 ||| 8)) = true := by
  have h : n % 16 < 16 := Nat.mod_lt _ (by decide)
  have hall : ∀ m : Fin 16, isHexDigitCI (hexChar (m.val &&& 3 ||| 8)) = true := by decide
  exact hall ⟨n % 16, h⟩

/-- An `x` slot of the generator always produces a lowercase hex digit. -/
theorem hexChar_mod_lower (n : Nat) : isLowerHexDigit (hexChar (n % 16)) = true := by
  have h : n % 16 < 16 := Nat.mod_lt _ (by decide)
  have hall : ∀ m : Fin 16, isLowerHexDigit (hexChar m.val) = true := by decide
  exact hall ⟨n % 16, h⟩

/-- A `y` slot of the generator always produces a lowercase hex digit. -/
theorem hexChar_y_lower (n : Nat) : isLowerHexDigit (hexChar ((n % 16) &&& 3 ||| 8)) = true := by
  have h : n % 16 < 16 := Nat.mod_lt _ (by decide)
  have hall : ∀ m : Fin 16, isLowerHexDigit (hexChar (m.val &&& 3 ||| 8)) = true := by decide
  exact hall ⟨n % 16, h⟩

/-- Pointwise compatibility of a template with a pattern: `x`/`y` slots (and
literal lowercase hex digits) sit under hex slots, dashes under dash slots. -/
def tplOk : List Char → List PatTok → Bool
  | [], [] => true
  | c :: cs, .hex :: ts => (c == 'x' || c == 'y' || isLowerHexDigit c) && tplOk cs ts
  | c :: cs, .dash :: ts => (c == '-') && tplOk cs ts
  | _, _ => false

/-- The generator's output matches any pattern its template is compatible
with, whatever the random draws. -/
theorem genUUIDAux_matches : ∀ (tpl : List Char) (toks : List PatTok) (i : Nat)
    (r : Nat → Nat), tplOk tpl toks = true →
    matchesAll toks (genUUIDAux tpl i r) = true := by
  intro tpl
  induction tpl with
  | nil =>
    intro toks i r h
    cases toks with
    | nil => rfl
    | cons t ts => simp [tplOk] at h
  | cons c cs ih =>
    intro toks i r h
    cases toks with
    | nil => simp [tplOk] at h
    | cons t ts =>
      cases t with
      | hex =>
        rw [tplOk, Bool.and_eq_true] at h
        obtain ⟨h1, h2⟩ := h
        have ihr := ih ts (i + 1) r h2
        by_cases hx : c = 'x'
        · subst hx
          simp [genUUIDAux, matchesAll, tokMatches, hexChar_mod_hex, ihr]
        · by_cases hy : c = 'y'
          · subst hy
            simp [genUUIDAux, matchesAll, tokMatches, hexChar_y_hex, ihr]
          · have hx' : (c == 'x') = false := by simp [hx]
            have hy' : (c == 'y') = false := by simp [hy]
            rw [hx', hy'] at h1
            simp only [Bool.false_or] at h1
            simp [genUUIDAux, hx', hy', matchesAll, tokMatches, lowerHex_isHexCI c h1, ihr]
      | dash =>
        rw [tplOk, Bool.and_eq_true] at h
        obtain ⟨h1, h2⟩ := h
        have ihr := ih ts (i + 1) r h2
        have hc : c = '-' := (beq_iff_eq (a := c) (b := '-')).mp h1
        subst hc
        simp [genUUIDAux, matchesAll, tokMatches, ihr]

/-- Every character the generator emits is a lowercase hex digit or a dash,
whatever the random draws. -/
theorem genUUIDAux_lower : ∀ (tpl : List Char) (toks : List PatTok) (i : Nat)
    (r : Nat → Nat), tplOk tpl toks = true →
    (genUUIDAux tpl i r).all (fun c => isLowerHexDigit c || c == '-') = true := by
  intro tpl
  induction tpl with
  | nil =>
    intro toks i r h
    rfl
  | cons c cs ih =>
    intro toks i r h
    cases toks with
    | nil => simp [tplOk] at h
    | cons t ts =>
      cases t with
      | hex =>
        rw [tplOk, Bool.and_eq_true] at h
        obtain ⟨h1, h2⟩ := h
        have ihr := ih ts (i + 1) r h2
        by_cases hx : c = 'x'
        · subst hx
          simp [genUUIDAux, List.all_cons, hexChar_mod_lower, ihr]
        · by_cases hy : c = 'y'
          · subst hy
            simp [genUUIDAux, List.all_cons, hexChar_y_lower, ihr]
          · have hx' : (c == 'x') = false := by simp [hx]
            have hy' : (c == 'y') = false := by simp [hy]
            rw [hx', hy'] at h1
            simp only [Bool.false_or] at h1
            simp [genUUIDAux, hx', hy', List.all_cons, h1, ihr]
      | dash =>
        rw [tplOk, Bool.and_eq_true] at h
        obtain ⟨h1, h2⟩ := h
        have ihr := ih ts (i + 1) r h2
        have hc : c = '-' := (beq_iff_eq (a := c) (b := '-')).mp h1
        subst hc
        simp [genUUIDAux, List.all_cons, ihr]

/-- Claim C7: `isValidUUID` accepts exactly the canonical 8-4-4-4-12
hexadecimal form case-insensitively: it accepts the sample UUID in lowercase
and in uppercase, rejects `"not-a-uuid"` and `""`, rejects every string whose
dash count differs from 4 (in particular any all-uppercase string missing a
hyphen group), and the edge function's `validateUUID` is the same predicate. -/
theorem c7_uuid_validator :
    isValidUUID "123e4567-e89b-42d3-a456-426614174000" = true ∧
    isValidUUID "123E4567-E89B-42D3-A456-426614174000" = true ∧
    isValidUUID "not-a-uuid" = false ∧
    isValidUUID "" = false ∧
    (∀ s : String, s.data.count '-' ≠ 4 → isValidUUID s = false) ∧
    validateUUID = isValidUUID := by
  refine ⟨by decide, by decide, by decide, by decide, ?_, rfl⟩
  intro s h
  cases hv : isValidUUID s with
  | false => rfl
  | true =>
    have hc := count_dash_of_matchesAll uuidPattern s.data hv
    have : uuidPattern.count PatTok.dash = 4 := by decide
    rw [this] at hc
    exact absurd hc h

/-- Witness for C7 at concrete inputs: the all-uppercase hyphenless string is
rejected. -/
theorem c7_uuid_validator_witness :
    ("123E4567E89B42D3A456426614174000" : String).data.count '-' ≠ 4 ∧
    isValidUUID "123E4567E89B42D3A456426614174000" = false :=
  ⟨by decide, c7_uuid_validator.2.2.2.2.1 "123E4567E89B42D3A456426614174000" (by decide)⟩

/-- Claim C10: for every outcome of the random draws, `generateUUID` produces
a string in canonical 8-4-4-4-12 lowercase hexadecimal form, so it passes both
the server's `validateUUID` and the client's `isValidUUID`. -/
theorem c10_generated_uuid_valid (r : Nat → Nat) :
    validateUUID (generateUUID r) = true ∧
    isValidUUID (generateUUID r) = true ∧
    (generateUUID r).data.all (fun c => isLowerHexDigit c || c == '-') = true := by
  have htpl : tplOk uuidTemplate uuidPattern = true := by decide
  exact ⟨genUUIDAux_matches uuidTemplate uuidPattern 0 r htpl,
    genUUIDAux_matches uuidTemplate uuidPattern 0 r htpl,
    genUUIDAux_lower uuidTemplate uuidPattern 0 r htpl⟩

/-! ## Helper lemmas for the sanitizer. -/

/-- `p` holds on every suffix of the list (the formalization of "the string
contains no occurrence violating `p`"). -/
def allSuffixes (p : List Char → Bool) : List Char → Bool
  | [] => p []
  | c :: t => p (c :: t) && allSuffixes p t

/-- No sanitizer pattern matches at this position: no script block starts
here, no `javascript:` starts here, no `on...=` handler starts here. -/
def cleanAt (t : List Char) : Bool :=
  (tryScript t).isNone && !(startsWithCI jsScheme t) && (tryOnAttr t).isNone

theorem allSuffixes_mono (p q : List Char → Bool) (h : ∀ t, p t = true → q t = true) :
    ∀ cs, allSuffixes p cs = true → allSuffixes q cs = true := by
  intro cs
  induction cs with
  | nil =>
    intro hp
    exact h [] hp
  | cons c t ih =>
    intro hp
    rw [allSuffixes, Bool.and_eq_true] at hp
    rw [allSuffixes, Bool.and_eq_true]
    exact ⟨h _ hp.1, ih hp.2⟩

theorem removeScriptsF_of_clean : ∀ (fuel : Nat) (cs : List Char),
    allSuffixes (fun t => (tryScript t).isNone) cs = true →
    removeScriptsF fuel cs = cs := by
  intro fuel
  induction fuel with
  | zero => intro cs _; rfl
  | succ n ih =>
    intro cs h
    cases cs with
    | nil => rfl
    | cons c rest =>
      rw [allSuffixes, Bool.and_eq_true] at h
      have h1 : tryScript (c :: rest) = none := Option.isNone_iff_eq_none.mp h.1
      rw [removeScriptsF, h1, ih rest h.2]

theorem removeJsSchemeF_of_clean : ∀ (fuel : Nat) (cs : List Char),
    allSuffixes (fun t => !(startsWithCI jsScheme t)) cs = true →
    removeJsSchemeF fuel cs = cs := by
  intro fuel
  induction fuel with
  | zero => intro cs _; rfl
  | succ n ih =>
    intro cs h
    cases cs with
    | nil => rfl
    | cons c rest =>
      rw [allSuffixes, Bool.and_eq_true] at h
      have h1 : startsWithCI jsScheme (c :: rest) = false := by
        have := h.1
        simpa using this
      rw [removeJsSchemeF, h1, ih rest h.2]
      simp

theorem removeOnAttrsF_of_clean : ∀ (fuel : Nat) (cs : List Char),
    allSuffixes (fun t => (tryOnAttr t).isNone) cs = true →
    removeOnAttrsF fuel cs = cs := by
  intro fuel
  induction fuel with
  | zero => intro cs _; rfl
  | succ n ih =>
    intro cs h
    cases cs with
    | nil => rfl
    | cons c rest =>
      rw [allSuffixes, Bool.and_eq_true] at h
      have h1 : tryOnAttr (c :: rest) = none := Option.isNone_iff_eq_none.mp h.1
      rw [removeOnAttrsF, h1, ih rest h.2]

/-- Claim C8: `sanitizeInput` maps `"<script>alert(1)</script>hello"` to
`"hello"`, removes the `javascript:` scheme from the anchor example, and
returns any string in which none of the three patterns occurs unchanged apart
from trimming. -/
theorem c8_sanitizer :
    sanitizeInput "<script>alert(1)</script>hello" = "hello" ∧
    sanitizeInput "<a href='javascript:evil()'>x</a>" = "<a href='evil()'>x</a>" ∧
    (∀ s : String, allSuffixes cleanAt s.data = true →
      sanitizeInput s = ⟨trimListJS s.data⟩) := by
  refine ⟨by decide, by decide, ?_⟩
  intro s h
  have h1 := allSuffixes_mono cleanAt (fun t => (tryScript t).isNone)
    (by
      intro t ht
      rw [cleanAt, Bool.and_eq_true, Bool.and_eq_true] at ht
      exact ht.1.1) s.data h
  have h2 := allSuffixes_mono cleanAt (fun t => !(startsWithCI jsScheme t))
    (by
      intro t ht
      rw [cleanAt, Bool.and_eq_true, Bool.and_eq_true] at ht
      exact ht.1.2) s.data h
  have h3 := allSuffixes_mono cleanAt (fun t => (tryOnAttr t).isNone)
    (by
      intro t ht
      rw [cleanAt, Bool.and_eq_true, Bool.and_eq_true] at ht
      exact ht.2) s.data h
  rw [sanitizeInput]
  rw [removeScriptsF_of_clean _ _ h1, removeJsSchemeF_of_clean _ _ h2,
    removeOnAttrsF_of_clean _ _ h3]

/-- Witness for C8's general part: a plain-text input with surrounding
whitespace is only trimmed. -/
theorem c8_sanitizer_witness :
    allSuffixes cleanAt ("  plain text 2+2 " : String).data = true ∧
    sanitizeInput "  plain text 2+2 " = ⟨trimListJS ("  plain text 2+2 " : String).data⟩ :=
  ⟨by decide, c8_sanitizer.2.2 "  plain text 2+2 " (by decide)⟩

/-- Claim C4: an empty-after-trimming title, or the absence of any non-empty
content field, makes `submitProblem` return null with the corresponding
validation message and issue no network call at all (`calls = []`: neither
the session lookup nor the endpoint invocation happens, and no polling loop
starts). -/
theorem c4_validation_no_network (data : ProblemSubmissionData) (sl : SessionLookup)
    (user : Option User) (isAuthenticated : Bool) (ie : Option SubmitError)
    (ir : Option SubmitResponse) :
    (titleMissing data = true →
      submitProblem data sl user isAuthenticated ie ir =
        { error := some "Problem title is required" }) ∧
    (titleMissing data = false → contentMissing data = true →
      submitProblem data sl user isAuthenticated ie ir =
        { error := some "Problem content is required" }) := by
  constructor
  · intro h
    rw [submitProblem, h]
    simp
  · intro h1 h2
    rw [submitProblem, h1, h2]
    simp

/-- Witness for C4 at concrete inputs: a whitespace-only title, and a good
title with no content field. -/
theorem c4_validation_no_network_witness :
    (titleMissing { title := "   ", inputType := "text" } = true ∧
      submitProblem { title := "   ", inputType := "text" } {} none false none none =
        { error := some "Problem title is required" }) ∧
    (titleMissing { title := "T", inputType := "text" } = false ∧
      contentMissing { title := "T", inputType := "text" } = true ∧
      submitProblem { title := "T", inputType := "text" } {} none false none none =
        { error := some "Problem content is required" }) :=
  ⟨⟨by decide,
    (c4_validation_no_network { title := "   ", inputType := "text" } {} none false
      none none).1 (by decide)⟩,
   ⟨by decide, by decide,
    (c4_validation_no_network { title := "T", inputType := "text" } {} none false
      none none).2 (by decide) (by decide)⟩⟩

/-! ## Helper lemma for the polling-timeout claim. -/

theorem pollLoop_timeout : ∀ (steps : List PollStep) (attempts : Nat) (pid : String)
    (u : Option User), isValidUUID pid = true → steps.all goodStep = true →
    attempts < 60 → 60 - attempts ≤ steps.length →
    (pollLoop pid u steps attempts).queries = 60 - attempts ∧
    (pollLoop pid u steps attempts).error =
      some "Problem processing timed out. Please try again." ∧
    (pollLoop pid u steps attempts).delays = List.replicate (59 - attempts) 2000 := by
  intro steps
  induction steps with
  | nil =>
    intro attempts pid u _ _ hlt hlen
    simp at hlen
    omega
  | cons s rest ih =>
    intro attempts pid u hpid hgood hlt hlen
    rw [List.all_cons, Bool.and_eq_true] at hgood
    obtain ⟨hs, hrest⟩ := hgood
    rw [goodStep, Bool.and_eq_true] at hs
    have hfe : s.fetchError = none := Option.isNone_iff_eq_none.mp hs.1
    cases hrow : s.row with
    | none => rw [hrow] at hs; exact absurd hs.2 (by decide)
    | some r =>
      rw [hrow, Bool.and_eq_true] at hs
      have hr1 : (r.status == "completed") = false := by
        have := hs.2.1
        simpa using this
      have hr2 : (r.status == "error") = false := by
        have := hs.2.2
        simpa using this
      rw [pollLoop, hpid, hfe, hrow]
      simp only [Bool.not_true, Bool.false_eq_true, if_false, hr1, hr2,
        Bool.or_self, if_neg (by simp : ¬((false || false) = true))]
      by_cases hnext : attempts + 1 < 60
      · have ihr := ih (attempts + 1) pid u hpid hrest hnext
          (by simp at hlen; omega)
        rw [if_pos hnext]
        refine ⟨?_, ?_, ?_⟩
        · simp only [ihr.1]
          omega
        · exact ihr.2.1
        · simp only [ihr.2.2]
          have : 59 - attempts = (59 - (attempts + 1)) + 1 := by omega
          rw [this, List.replicate_succ]
      · rw [if_neg hnext]
        have ha : attempts = 59 := by omega
        subst ha
        exact ⟨rfl, rfl, rfl⟩

/-- Claim C1: when the identifier is well-formed and the environment supplies
only successful queries with non-terminal rows, the polling loop performs
exactly 60 status queries (never a 61st, however many further steps the
environment could supply), ends by setting the timeout message, and its timer
schedule is a 1000 ms delay before the first attempt followed by a fixed
2000 ms interval between consecutive attempts. -/
theorem c1_poll_timeout_after_60 (pid : String) (u : Option User)
    (steps : List PollStep) (hpid : isValidUUID pid = true)
    (hgood : steps.all goodStep = true) (hlen : 60 ≤ steps.length) :
    (pollForCompletion pid u steps).queries = 60 ∧
    (pollForCompletion pid u steps).error =
      some "Problem processing timed out. Please try again." ∧
    (pollForCompletion pid u steps).delays = 1000 :: List.replicate 59 2000 := by
  have h := pollLoop_timeout steps 0 pid u hpid hgood (by omega) (by omega)
  rw [pollForCompletion]
  exact ⟨h.1, h.2.1, by rw [h.2.2]⟩

/-- Witness for C1: 65 available non-terminal steps still yield exactly 60
queries, the timeout message, and the 1000 ms + 59 × 2000 ms schedule. -/
theorem c1_poll_timeout_witness :
    isValidUUID "123e4567-e89b-42d3-a456-426614174000" = true ∧
    (List.replicate 65 ({ row := some { status := "processing" } } : PollStep)).all
      goodStep = true ∧
    (pollForCompletion "123e4567-e89b-42d3-a456-426614174000" none
        (List.replicate 65 { row := some { status := "processing" } })).queries = 60 ∧
    (pollForCompletion "123e4567-e89b-42d3-a456-426614174000" none
        (List.replicate 65 { row := some { status := "processing" } })).error =
      some "Problem processing timed out. Please try again." ∧
    (pollForCompletion "123e4567-e89b-42d3-a456-426614174000" none
        (List.replicate 65 { row := some { status := "processing" } })).delays =
      1000 :: List.replicate 59 2000 := by
  have h := c1_poll_timeout_after_60 "123e4567-e89b-42d3-a456-426614174000" none
    (List.replicate 65 { row := some { status := "processing" } })
    (by decide) (by decide) (by decide)
  exact ⟨by decide, by decide, h.1, h.2.1, h.2.2⟩

/-! ## Helper lemmas about the `||` chains. -/

theorem truthy_jsOr_some (a : Option String) (d : String) (hd : d ≠ "") :
    truthy (jsOr a (some d)) = true := by
  cases a with
  | none => simp [jsOr, truthy, hd]
  | some s =>
    by_cases hs : s = ""
    · subst hs
      simp [jsOr, truthy, hd]
    · simp [jsOr, truthy, hs]

theorem jsOr_of_truthy (a b : Option String) (h : truthy a = true) : jsOr a b = a := by
  rw [jsOr, h]
  simp

/-- Claim C5: a polling attempt that fetches a row with status `error` stops
the loop — it issues one query, schedules no further timer — and the exposed
error message is the row's derived text: `ai_response.error`, else
`ai_response.message`, else `error_message`, else the fixed fallback
`'Problem processing failed'` (each step skipping falsy values, as `||`
does). -/
theorem c5_error_row_stops (pid : String) (u : Option User) (s : PollStep)
    (rest : List PollStep) (attempts : Nat) (r : Row)
    (hpid : isValidUUID pid = true) (hfe : s.fetchError = none)
    (hrow : s.row = some r) (hst : r.status = "error") :
    (pollLoop pid u (s :: rest) attempts).queries = 1 ∧
    (pollLoop pid u (s :: rest) attempts).delays = [] ∧
    (pollLoop pid u (s :: rest) attempts).error =
      some (match r.ai_response with
        | some ar => (jsOr ar.error (jsOr ar.message (jsOr r.error_message
            (some "Problem processing failed")))).getD "Problem processing failed"
        | none => (jsOr r.error_message (some "Problem processing failed")).getD
            "Problem processing failed") := by
  rw [pollLoop, hpid, hfe, hrow]
  have hterm : ((r.status == "completed") || (r.status == "error")) = true := by
    rw [hst]
    decide
  simp only [Bool.not_true, Bool.false_eq_true, if_false, hterm, if_true]
  refine ⟨by trivial, by trivial, ?_⟩
  have herr : (r.status == "error") = true := by rw [hst]; decide
  simp only [herr, if_true]
  -- the normalized error message is the derived chain, which is always truthy
  have hnorm : (normalizeRow r).errorMessage =
      match r.ai_response with
      | some ar => jsOr ar.error (jsOr ar.message (jsOr r.error_message
          (some "Problem processing failed")))
      | none => jsOr r.error_message (some "Problem processing failed") := by
    rw [normalizeRow]
    simp only [herr, if_true]
  rw [hnorm]
  cases har : r.ai_response with
  | none =>
    have ht := truthy_jsOr_some r.error_message "Problem processing failed" (by decide)
    rw [jsOr_of_truthy _ _ ht]
  | some ar =>
    have ht : truthy (jsOr ar.error (jsOr ar.message (jsOr r.error_message
        (some "Problem processing failed")))) = true := by
      cases he : ar.error with
      | none =>
        rw [jsOr]
        simp only [truthy, if_false]
        cases hm : ar.message with
        | none =>
          rw [jsOr]
          simp only [truthy, if_false]
          exact truthy_jsOr_some r.error_message "Problem processing failed" (by decide)
        | some m =>
          by_cases hme : m = ""
          · subst hme
            rw [jsOr]
            simp only [truthy]
            simp
            exact truthy_jsOr_some r.error_message "Problem processing failed" (by decide)
          · rw [jsOr]
            simp [truthy, hme]
      | some e =>
        by_cases hee : e = ""
        · subst hee
          rw [jsOr]
          simp only [truthy]
          simp
          cases hm : ar.message with
          | none =>
            rw [jsOr]
            simp only [truthy, if_false]
            exact truthy_jsOr_some r.error_message "Problem processing failed" (by decide)
          | some m =>
            by_cases hme : m = ""
            · subst hme
              rw [jsOr]
              simp only [truthy]
              simp
              exact truthy_jsOr_some r.error_message "Problem processing failed" (by decide)
            · rw [jsOr]
              simp [truthy, hme]
        · rw [jsOr]
          simp [truthy, hee]
    rw [jsOr_of_truthy _ _ ht]

/-- Witness for C5: a concrete error row whose `ai_response.error` is absent
and whose `ai_response.message` carries the text. -/
theorem c5_error_row_stops_witness :
    isValidUUID "123e4567-e89b-42d3-a456-426614174000" = true ∧
    (pollLoop "123e4567-e89b-42d3-a456-426614174000" none
      [{ row := some { status := "error"
                       ai_response := some { message := some "model failed" } } }] 3).queries = 1 ∧
    (pollLoop "123e4567-e89b-42d3-a456-426614174000" none
      [{ row := some { status := "error"
                       ai_response := some { message := some "model failed" } } }] 3).delays = [] ∧
    (pollLoop "123e4567-e89b-42d3-a456-426614174000" none
      [{ row := some { status := "error"
                       ai_response := some { message := some "model failed" } } }] 3).error =
      some "model failed" := by
  have h := c5_error_row_stops "123e4567-e89b-42d3-a456-426614174000" none
    { row := some { status := "error", ai_response := some { message := some "model failed" } } }
    [] 3 { status := "error", ai_response := some { message := some "model failed" } }
    (by decide) rfl rfl rfl
  exact ⟨by decide, h.1, h.2.1, h.2.2⟩

/-- Claim C3: on a successful submission response that passes the client's
checks, `submitProblem` starts the polling loop exactly when the response
status is `processing` or `pending`; it never starts it when the status is
`completed`, and in that case it returns the problem id immediately.  The
polling loop's own first timer is always the 1000 ms initial delay, so the
first status query is issued after ~1000 ms whenever polling starts. -/
theorem c3_polling_initiation (data : ProblemSubmissionData) (sl : SessionLookup)
    (user : Option User) (isAuthenticated : Bool) (resp : SubmitResponse)
    (p : Option String × Bool) (pid : String)
    (h1 : titleMissing data = false) (h2 : contentMissing data = false)
    (h3 : sl.error = none)
    (h4 : identityResolve sl user isAuthenticated = .ok p)
    (h5 : resp.success = true) (h6 : resp.problemId = some pid)
    (h7 : (pid == "") = false) (h8 : isValidUUID pid = true) :
    ((submitProblem data sl user isAuthenticated none (some resp)).pollStarted =
        some pid ↔
      (resp.status = some "processing" ∨ resp.status = some "pending")) ∧
    (resp.status = some "completed" →
      (submitProblem data sl user isAuthenticated none (some resp)).pollStarted =
        none ∧
      (submitProblem data sl user isAuthenticated none (some resp)).returnValue =
        some pid) ∧
    (∀ (u2 : Option User) (steps : List PollStep),
      (pollForCompletion pid u2 steps).delays.head? = some 1000) := by
  obtain ⟨uid, hdr⟩ := p
  have hsub : submitProblem data sl user isAuthenticated none (some resp) =
      (let body : RequestBody :=
        { input_type := data.inputType
          title := trimJS data.title
          description := data.description.map trimJS
          text_content := data.textContent.map trimJS
          image_data := data.imageData
          voice_url := data.voiceUrl
          user_id := uid }
      let initialResult : ProblemResult :=
        { id := pid
          status := (jsOr resp.status (some "pending")).getD "pending"
          solution := resp.solution
          subject := resp.subject
          difficulty := resp.difficulty
          tags := resp.tags }
      let base : SubmitOutcome :=
        { returnValue := some pid, result := some initialResult
          calls := [.getSession, .invokeSubmit]
          sentBody := some body, sentAuthHeader := some hdr }
      if resp.status == some "completed" then base
      else if resp.status == some "processing" || resp.status == some "pending" then
        { base with pollStarted := some pid }
      else base) := by
    rw [submitProblem, h1, h2, h3, h4]
    have htr : truthy resp.problemId = true := by
      rw [h6]
      simpa [truthy] using h7
    simp only [Option.isSome_none, Bool.false_eq_true, if_false, h5, Bool.not_true,
      htr, Bool.not_false, if_true, if_false]
    rw [h6]
    simp only [Option.getD_some, h8, Bool.not_true, Bool.false_eq_true, if_false]
  refine ⟨?_, ?_, ?_⟩
  · rw [hsub]
    by_cases hc : resp.status = some "completed"
    · have hc' : (resp.status == some "completed") = true := by
        rw [hc]; rfl
      simp only [hc', if_true]
      constructor
      · intro hcon
        exact absurd hcon (by simp)
      · intro hor
        rcases hor with ho | ho <;> rw [ho] at hc <;> simp at hc
    · have hc' : (resp.status == some "completed") = false := by
        simpa using hc
      simp only [hc', Bool.false_eq_true, if_false]
      by_cases hp : resp.status = some "processing" ∨ resp.status = some "pending"
      · have hp' : ((resp.status == some "processing") ||
            (resp.status == some "pending")) = true := by
          rcases hp with h | h <;> rw [h] <;> simp
        simp only [hp', if_true]
        simpa using hp
      · have hp' : ((resp.status == some "processing") ||
            (resp.status == some "pending")) = false := by
          rw [Bool.or_eq_false_iff]
          constructor <;> simp only [beq_eq_false_iff_ne] <;> intro he <;>
            exact hp (by simp [he])
        simp only [hp', Bool.false_eq_true, if_false]
        constructor
        · intro hcon
          exact absurd hcon (by simp)
        · intro hor
          exact absurd hor hp
  · intro hc
    have hc' : (resp.status == some "completed") = true := by rw [hc]; rfl
    rw [hsub]
    simp only [hc', if_true]
    exact ⟨by trivial, by trivial⟩
  · intro u2 steps
    rw [pollForCompletion]
    rfl

/-- Witness for C3: a guest submission whose response is `processing` starts
the polling loop on the returned id. -/
theorem c3_polling_initiation_witness :
    identityResolve {} (some { id := "", isGuest := true }) false =
      Except.ok (none, false) ∧
    ((submitProblem { title := "Q1", inputType := "text", textContent := some "2+2?" }
        {} (some { id := "", isGuest := true }) false none
        (some { success := true
                problemId := some "123e4567-e89b-42d3-a456-426614174000"
                status := some "processing" })).pollStarted =
      some "123e4567-e89b-42d3-a456-426614174000" ↔
      (some "processing" = some "processing" ∨ some "processing" = some "pending")) := by
  have h := c3_polling_initiation
    { title := "Q1", inputType := "text", textContent := some "2+2?" } {}
    (some { id := "", isGuest := true }) false
    { success := true, problemId := some "123e4567-e89b-42d3-a456-426614174000"
      status := some "processing" }
    (none, false) "123e4567-e89b-42d3-a456-426614174000"
    (by decide) (by decide) rfl rfl rfl rfl (by decide) (by decide)
  exact ⟨rfl, h.1⟩

/-- Claim C6: a guest submission (no live session token, not authenticated,
`user.isGuest`) sends a request body whose `user_id` is `none` — the field is
simply absent from the serialized JSON, neither null nor an empty string —
whatever the endpoint then answers; and a handler request carrying no
`user_id` has its identity minted server-side: the row is attributed to the
freshly generated guest UUID. -/
theorem c6_guest_user_id_omitted :
    (∀ (data : ProblemSubmissionData) (sl : SessionLookup) (gu : User)
        (ie : Option SubmitError) (ir : Option SubmitResponse),
      titleMissing data = false → contentMissing data = false →
      sl.error = none → truthySession sl.session = false → gu.isGuest = true →
      (submitProblem data sl (some gu) false ie ir).sentBody.map
        RequestBody.user_id = some none) ∧
    (∀ (req : SecureProblemRequest) (env : HandlerEnv) (sid : String),
      truthy req.input_type = true → truthy req.title = true →
      (req.input_type == some "text" && !(truthy (sanitizedText req))) = false →
      req.user_id = none → req.session_id = none →
      env.sessionInsert = .ok sid → env.problemInsertError = none →
      (serveHandler req env).usedUserId = some (generateUUID env.guestRand) ∧
      (serveHandler req env).mintedGuest = some (generateUUID env.guestRand) ∧
      ((serveHandler req env).writes.getD 0 emptyRow).user_id =
        generateUUID env.guestRand ∧
      (serveHandler req env).writes ≠ []) := by
  constructor
  · intro data sl gu ie ir h1 h2 h3 h4 h5
    have hid : identityResolve sl (some gu) false = .ok (none, false) := by
      rw [identityResolve, h4]
      simp only [Bool.false_eq_true, if_false, Bool.false_and, isGuestOf, h5, if_true]
    rw [submitProblem, h1, h2, h3, hid]
    simp only [Option.isSome_none, Bool.false_eq_true, if_false]
    cases ie with
    | some e => rfl
    | none =>
      cases ir with
      | none => rfl
      | some resp =>
        by_cases hs : resp.success
        · simp only [hs, Bool.not_true, Bool.false_eq_true, if_false]
          by_cases hp : truthy resp.problemId
          · simp only [hp, Bool.not_true, Bool.false_eq_true, if_false]
            by_cases hv : isValidUUID (resp.problemId.getD "")
            · simp only [hv, Bool.not_true, Bool.false_eq_true, if_false]
              by_cases hc : (resp.problemId.getD "" : String) = ""
              all_goals
                split
                · rfl
                · split
                  · rfl
                  · rfl
            · simp only [hv, Bool.not_false, if_true]
              rfl
          · simp only [hp, Bool.not_false, if_true]
            rfl
        · simp only [Bool.not_eq_true] at hs
          simp only [hs, Bool.not_false, if_true]
          rfl
  · intro req env sid h1 h2 h3 h4 h5 h6 h7
    have hu : truthy req.user_id = false := by rw [h4]; rfl
    have hsid : truthy req.session_id = false := by rw [h5]; rfl
    rw [serveHandler]
    simp only [h1, h2, Bool.not_true, Bool.false_or, Bool.false_eq_true, if_false,
      h3, hu, hsid, Bool.false_and, h6, h7]
    rw [processStage]
    split
    · exact ⟨rfl, rfl, rfl, by simp⟩
    · split
      · exact ⟨rfl, rfl, rfl, by simp⟩
      · split
        · exact ⟨rfl, rfl, rfl, by simp⟩
        · exact ⟨rfl, rfl, rfl, by simp⟩

/-- Witness for C6: a concrete guest submission and a concrete handler run
with no caller-supplied `user_id`. -/
theorem c6_guest_user_id_omitted_witness :
    ((submitProblem { title := "Q1", inputType := "text", textContent := some "2+2?" }
        {} (some { id := "", isGuest := true }) false none
        (some { success := true })).sentBody.map RequestBody.user_id = some none) ∧
    ((serveHandler { input_type := some "text", title := some "T"
                     text_content := some "x" }
        { googleApiKey := some "k", sessionInsert := .ok "sess"
          gemini := .ok (some "easy") }).usedUserId =
      some (generateUUID (fun _ => 0))) := by
  constructor
  · exact c6_guest_user_id_omitted.1
      { title := "Q1", inputType := "text", textContent := some "2+2?" } {}
      { id := "", isGuest := true } none (some { success := true })
      (by decide) (by decide) rfl (by decide) (by decide)
  · exact (c6_guest_user_id_omitted.2
      { input_type := some "text", title := some "T", text_content := some "x" }
      { googleApiKey := some "k", sessionInsert := .ok "sess"
        gemini := .ok (some "easy") } "sess"
      (by decide) (by decide) (by decide) rfl rfl rfl rfl).1

/-- Claim C9: when the generative-AI API key is absent, the handler answers
HTTP 503 with `success:false`, the error text and the problem id, after
writing the row's status back as `error` with that error message — it does
not abandon the row as `processing` nor fall into the catch-all 500. -/
theorem c9_missing_api_key_503 (req : SecureProblemRequest) (env : HandlerEnv)
    (sid : String)
    (h1 : truthy req.input_type = true) (h2 : truthy req.title = true)
    (h3 : (req.input_type == some "text" && !(truthy (sanitizedText req))) = false)
    (h4 : (truthy req.user_id && !(validateUUID (req.user_id.getD ""))) = false)
    (h5 : req.session_id = none) (h6 : env.sessionInsert = .ok sid)
    (h7 : env.problemInsertError = none)
    (h8 : truthy env.googleApiKey = false) :
    (serveHandler req env).status = 503 ∧
    (serveHandler req env).success = false ∧
    (serveHandler req env).error = some "AI service temporarily unavailable" ∧
    (serveHandler req env).problemId = some (generateUUID env.problemRand) ∧
    (serveHandler req env).writes.length = 2 ∧
    ((serveHandler req env).writes.getD 1 emptyRow).status = "error" ∧
    ((serveHandler req env).writes.getD 1 emptyRow).error_message =
      some "AI service temporarily unavailable" := by
  have hsid : truthy req.session_id = false := by rw [h5]; rfl
  rw [serveHandler]
  simp only [h1, h2, Bool.not_true, Bool.false_or, Bool.false_eq_true, if_false,
    h3, h4, hsid, Bool.false_and, h6, h7]
  rw [processStage]
  simp only [h8, Bool.not_false, if_true]
  refine ⟨?_, ?_, ?_, ?_, ?_, ?_, ?_⟩ <;> trivial

/-- Witness for C9: a concrete request against an environment with no key. -/
theorem c9_missing_api_key_503_witness :
    (serveHandler { input_type := some "text", title := some "T"
                    text_content := some "x" }
      { sessionInsert := .ok "sess" }).status = 503 ∧
    (serveHandler { input_type := some "text", title := some "T"
                    text_content := some "x" }
      { sessionInsert := .ok "sess" }).success = false ∧
    ((serveHandler { input_type := some "text", title := some "T"
                     text_content := some "x" }
      { sessionInsert := .ok "sess" }).writes.getD 1 emptyRow).status = "error" := by
  have h := c9_missing_api_key_503
    { input_type := some "text", title := some "T", text_content := some "x" }
    { sessionInsert := .ok "sess" } "sess"
    (by decide) (by decide) (by decide) (by decide) rfl rfl rfl rfl
  exact ⟨h.1, h.2.1, h.2.2.2.2.2.1⟩

/-! ## Helper lemmas for the status/solution/errorMessage invariant. -/

/-- The row-level form of the spec's invariant, reading "present" as
"non-null": `completed` iff the solution field is set and no error message,
`error` iff an error message is set. -/
def rowInvariant (row : Row) : Prop :=
  ((row.status = "completed") ↔ (row.solution.isSome ∧ row.error_message = none)) ∧
  ((row.status = "error") ↔ row.error_message.isSome)

theorem jsOr_some_isSome (a : Option String) (d : String) :
    (jsOr a (some d)).isSome = true := by
  cases a with
  | none => rfl
  | some s =>
    rw [jsOr]
    split <;> rfl

theorem jsOr_isSome_of (a b : Option String) (h : b.isSome = true) :
    (jsOr a b).isSome = true := by
  cases a with
  | none => exact h
  | some s =>
    rw [jsOr]
    split
    · rfl
    · exact h

theorem processStage_writes_invariant (row0 : Row) (pid sid uid : String)
    (minted : Option String) (env : HandlerEnv)
    (h0s : row0.status = "processing") (h0sol : row0.solution = none)
    (h0err : row0.error_message = none) :
    ∀ row ∈ (processStage row0 pid sid uid minted env).writes, rowInvariant row := by
  have hinv0 : rowInvariant row0 := by
    rw [rowInvariant, h0s, h0sol, h0err]
    refine ⟨?_, ?_⟩ <;> constructor <;> intro h <;> simp_all
  rw [processStage]
  split
  · intro row hmem
    simp only [List.mem_cons, List.not_mem_nil, or_false] at hmem
    rcases hmem with h | h
    · rw [h]; exact hinv0
    · rw [h, rowInvariant]
      refine ⟨?_, ?_⟩ <;> constructor <;> intro hx <;> simp_all
  · split
    · intro row hmem
      simp only [List.mem_cons, List.not_mem_nil, or_false] at hmem
      rcases hmem with h | h
      · rw [h]; exact hinv0
      · rw [h, rowInvariant]
        refine ⟨?_, ?_⟩ <;> constructor <;> intro hx <;> simp_all
    · split
      · intro row hmem
        simp only [List.mem_cons, List.not_mem_nil, or_false] at hmem
        rw [hmem]
        exact hinv0
      · intro row hmem
        simp only [List.mem_cons, List.not_mem_nil, or_false] at hmem
        rcases hmem with h | h
        · rw [h]; exact hinv0
        · rw [h, rowInvariant]
          refine ⟨?_, ?_⟩ <;> constructor <;> intro hx <;> simp_all

theorem serveHandler_writes_invariant (req : SecureProblemRequest)
    (env : HandlerEnv) :
    ∀ row ∈ (serveHandler req env).writes, rowInvariant row := by
  rw [serveHandler]
  intro row hmem
  repeat' split at hmem
  all_goals
    first
      | exact processStage_writes_invariant _ _ _ _ _ _ rfl rfl rfl row hmem
      | (simp [throwOutcome, apply_ite] at hmem <;>
         exact processStage_writes_invariant _ _ _ _ _ _ rfl rfl rfl row hmem.2)

/-- The concrete request of the C2 counterexample scenario. -/
def c2Req : SecureProblemRequest :=
  { input_type := some "text", title := some "T", text_content := some "x" }

/-- The concrete environment of the C2 counterexample scenario: the AI's
whole response text is a single script block. -/
def c2Env : HandlerEnv :=
  { googleApiKey := some "k", sessionInsert := .ok "sess"
    gemini := .ok (some "<script>x</script>") }

/-- The completed row this run of the handler writes (its second write). -/
def c2RowFetched : Row :=
  (serveHandler c2Req c2Env).writes.getD 1 emptyRow

/-- Counterexample to C2 as stated: a run of the flow in which the AI's text
is a single script block.  Sanitization strips it to the empty string, the
handler writes a `completed` row whose `solution` is `''`, and the polling
loop's normalization (`data.solution || undefined`) turns that into a
`ProblemResult` with status `completed` but no solution — so "status is
`completed` iff a solution is present and errorMessage is absent" fails for
the normalized result of this fetched row. -/
theorem c2_invariant_counterexample :
    c2RowFetched.status = "completed" ∧
    c2RowFetched.solution = some "" ∧
    ¬ (((normalizeRow c2RowFetched).status = "completed") ↔
       ((normalizeRow c2RowFetched).solution.isSome ∧
        (normalizeRow c2RowFetched).errorMessage = none)) := by
  refine ⟨by decide, by decide, ?_⟩
  intro h
  have h1 := h.mp (by decide)
  have h2 : (normalizeRow c2RowFetched).solution.isSome = false := by decide
  rw [h2] at h1
  exact absurd h1.1 (by decide)

/-- Claim C2, amended: the iff holds with "present" read as "non-null" for
every row the remote handler writes at any stage; for normalized results the
`error` half holds for every fetched row, and the `completed` half is
guaranteed only when the stored solution is non-empty — a completed row whose
solution text is the empty string (e.g. an AI response wholly stripped by
sanitization) normalizes to a result with status `completed` and no
solution. -/
theorem c2_invariant_amended :
    (∀ (req : SecureProblemRequest) (env : HandlerEnv),
      ∀ row ∈ (serveHandler req env).writes,
        ((row.status = "completed") ↔
          (row.solution.isSome ∧ row.error_message = none)) ∧
        ((row.status = "error") ↔ row.error_message.isSome)) ∧
    (∀ r : Row, (normalizeRow r).errorMessage.isSome = true ↔ r.status = "error") ∧
    (∀ r : Row, r.status = "completed" → truthy r.solution = true →
      (normalizeRow r).solution = r.solution ∧
      (normalizeRow r).errorMessage = none) := by
  refine ⟨serveHandler_writes_invariant, ?_, ?_⟩
  · intro r
    rw [normalizeRow]
    by_cases hs : r.status = "error"
    · have hs2 : (r.status == "error") = true := by rw [hs]; rfl
      simp only [hs2, if_true]
      constructor
      · intro _; exact hs
      · intro _
        cases har : r.ai_response with
        | none => exact jsOr_some_isSome _ _
        | some ar =>
          exact jsOr_isSome_of _ _ (jsOr_isSome_of _ _ (jsOr_some_isSome _ _))
    · have hs2 : (r.status == "error") = false := by simpa using hs
      simp only [hs2, Bool.false_eq_true, if_false]
      constructor
      · intro h; exact absurd h (by simp)
      · intro h; exact absurd h hs
  · intro r hc htr
    have hs2 : (r.status == "error") = false := by
      rw [hc]; rfl
    rw [normalizeRow]
    simp only [hs2, Bool.false_eq_true, if_false]
    refine ⟨by rw [jsUndef, htr, if_pos rfl], by trivial⟩

/-- Witness for the amended C2: the invariant checked on a write of a
concrete handler run, the `error` half on a concrete error row, and the
`completed` half on a concrete completed row with a non-empty solution. -/
theorem c2_invariant_amended_witness :
    ((((serveHandler c2Req c2Env).writes.getD 0 emptyRow).status = "completed" ↔
      (((serveHandler c2Req c2Env).writes.getD 0 emptyRow).solution.isSome ∧
       ((serveHandler c2Req c2Env).writes.getD 0 emptyRow).error_message = none)) ∧
     ((((serveHandler c2Req c2Env).writes.getD 0 emptyRow).status = "error") ↔
      ((serveHandler c2Req c2Env).writes.getD 0 emptyRow).error_message.isSome)) ∧
    ((normalizeRow { status := "error" }).errorMessage.isSome = true ↔
      ("error" : String) = "error") ∧
    (("completed" : String) = "completed" ∧
      truthy (some "sol") = true ∧
      (normalizeRow { status := "completed", solution := some "sol" }).solution =
        some "sol" ∧
      (normalizeRow { status := "completed", solution := some "sol" }).errorMessage =
        none) := by
  refine ⟨?_, ?_, ?_⟩
  · exact c2_invariant_amended.1 c2Req c2Env _ (by decide)
  · exact c2_invariant_amended.2.1 { status := "error" }
  · refine ⟨rfl, by decide, ?_⟩
    exact c2_invariant_amended.2.2 { status := "completed", solution := some "sol" }
      rfl (by decide)

end LLIter3
